import Mathlib

/-!
Verification of `src/backend/src/services/omnidimension_service.py`
(`OmniDimensionService`), a thin orchestration wrapper around a voice-agent
provider.  Python values that flow through the service (dict entries, API
responses, cached agent data) are embedded as the inductive type `Val`;
Python dicts become association lists looked up by first match; a raised
exception becomes `Except.error`, and stateful methods pass the mutable
service state (`agents_cache`, `call_history`) explicitly, returning the
resulting state alongside the normal return value or the raised exception.
External provider calls (`self.client.*`) are abstracted by oracle
functions supplied as parameters.
-/

/-- A dynamically-typed Python value, as used by the service: strings,
numbers (the one float literal `0.0` in the agent configuration is modelled
as the integer 0), booleans, lists, dicts (association lists, looked up by
first match) and `None` (`Val.null`). -/
inductive Val where
  | str : String → Val
  | int : Int → Val
  | bool : Bool → Val
  | list : List Val → Val
  | dict : List (String × Val) → Val
  | null : Val

/-- Python truthiness (`bool(v)`) for the embedded values: empty strings,
zero, `False`, empty lists/dicts and `None` are falsy. -/
def Val.truthy : Val → Bool
  | .str s => !(s == "")
  | .int n => !(n == 0)
  | .bool b => b
  | .list l => !l.isEmpty
  | .dict d => !d.isEmpty
  | .null => false

/-- `d.get(k)` on a Python dict: the value at key `k`, if present
(association lists are looked up by first match). -/
def dget {α : Type} (d : List (String × α)) (k : String) : Option α :=
  (d.find? (fun p => p.1 == k)).map (fun p => p.2)

/-- `d.get(k)` returning `None` (`Val.null`) when the key is absent. -/
def dgetV (d : List (String × Val)) (k : String) : Val :=
  (dget d k).getD Val.null

/-- `{**d, k: v}` / `d[k] = v`: replace the value at `k` in place if the
key is present, else append the new entry, as Python dicts do. -/
def dset (d : List (String × Val)) (k : String) (v : Val) : List (String × Val) :=
  if d.any (fun p => p.1 == k) then d.map (fun p => if p.1 == k then (k, v) else p)
  else d ++ [(k, v)]

/-- Python `a or b` on embedded values: `a` when truthy, else `b`. -/
def pyOr (a b : Val) : Val := if a.truthy then a else b

/-- Key lookup on a `Val`, when it is a dict. -/
def Val.getKey : Val → String → Option Val
  | .dict d, k => dget d k
  | _, _ => Option.none

/-- Embeds `OmniDimensionService._handle_response` (lines 38-44):
a dict containing the key `json` is unwrapped to that entry; any other
value is returned unchanged. -/
def handle_response (response : Val) : Val :=
  match response with
  | .dict d =>
    match dget d "json" with
    | Option.some v => v
    | Option.none => .dict d
  | v => v

/-- Embeds `OmniDimensionService._validate_phone_number` (lines 46-53):
empty input is invalid; otherwise every plus sign is removed
(`phone.replace('+', '')`, modelled character-wise), the remaining
characters are filtered to digits, and the digit count must lie in
[10, 15]. -/
def validate_phone_number (phone : String) : Bool :=
  if phone == "" then false
  else
    let clean_phone := (phone.data.filter (fun c => c ≠ '+')).filter (fun c => c.isDigit)
    decide (10 ≤ clean_phone.length) && decide (clean_phone.length ≤ 15)

/-- The required-field loop of `_validate_agent_config` (lines 57-60):
raises on the first field whose value is missing or falsy. -/
def validate_required_fields (config : List (String × Val)) : List String → Except String Bool
  | [] => .ok true
  | f :: fs =>
    if (dgetV config f).truthy then validate_required_fields config fs
    else .error ("Agent configuration missing required field: " ++ f)

/-- Embeds `OmniDimensionService._validate_agent_config` (lines 55-61). -/
def validate_agent_config (config : List (String × Val)) : Except String Bool :=
  validate_required_fields config ["name", "welcome_message", "call_type"]

/-- Embeds the api-key resolution of `OmniDimensionService.__init__`
(lines 15-19).  `api_key_param = none` models calling the constructor
without the argument, in which case Python supplies the declared default
value `"Zxw_8n3uvfGKhHMHv9jZwu5z0FncESPNnMjZC0R14J0"`; `env_api_key`
models `os.getenv('OMNIDIMENSION_API_KEY')` (`none` when unset). -/
def init_api_key (api_key_param : Option String) (env_api_key : Option String) :
    Except String String :=
  let api_key_arg : String := api_key_param.getD "Zxw_8n3uvfGKhHMHv9jZwu5z0FncESPNnMjZC0R14J0"
  let api_key : Option String :=
    if api_key_arg == "" then env_api_key else Option.some api_key_arg
  match api_key with
  | Option.some k =>
    if k == "" then
      .error "API key must be provided either as parameter or OMNIDIMENSION_API_KEY environment variable"
    else .ok k
  | Option.none =>
    .error "API key must be provided either as parameter or OMNIDIMENSION_API_KEY environment variable"

/-- `self.test_phone` (line 23), the fixed fallback test number. -/
def test_phone : String := "+919548999129"

/-- The mutable in-process state of the service: `self.agents_cache`
(line 24) and `self.call_history` (line 25).  Cache keys are the cached
agent identifiers (arbitrary response values, strings in mock mode);
assignment `self.agents_cache[agent_id] = agent_data` is modelled as a
cons, which shadows any earlier entry for the same key under first-match
lookup. -/
structure ServiceState where
  agents_cache : List (Val × Val)
  call_history : List Val

/-- The freshly-constructed service state: empty cache, empty history. -/
def initState : ServiceState := ⟨[], []⟩

/-- Turns a string-valued Python dict into an embedded value. -/
def strDict (d : List (String × String)) : Val :=
  Val.dict (d.map (fun p => (p.1, Val.str p.2)))

/-- The agent configuration synthesized by `create_restaurant_agent`
(lines 93-121), with `customer_name` / `customer_email` already resolved
(lines 89-90).  The float literal `0.0` of `filler_after_sec` is modelled
as the integer 0. -/
def agent_config (restaurant_name customer_name customer_email : String) :
    List (String × Val) :=
  [("name", .str (restaurant_name ++ " - Booking Assistant for " ++ customer_name)),
   ("welcome_message", .str ("Hello! This is " ++ customer_name ++
      " calling to make a reservation at " ++ restaurant_name ++
      ". Could you please help me with booking a table?")),
   ("context_breakdown", .list [
      .dict [("title", .str "Reservation Request"),
             ("body", .str ("I am " ++ customer_name ++
                " and I would like to make a reservation at " ++ restaurant_name ++
                ". I will provide the date, time, number of guests, and any special requests. Please be polite and professional when speaking with the restaurant staff."))],
      .dict [("title", .str "Customer Information"),
             ("body", .str ("Customer Name: " ++ customer_name ++ ", Email: " ++
                customer_email ++
                ". Please provide this information if the restaurant asks for contact details."))],
      .dict [("title", .str "Conversation Flow"),
             ("body", .str "1. Greet the restaurant politely 2. Request to make a reservation 3. Provide all reservation details clearly 4. Confirm the booking details 5. Ask for confirmation number if available 6. Thank them and end the call politely")]]),
   ("call_type", .str "Outgoing"),
   ("voice_provider", .str "eleven_labs"),
   ("voice_external_id", .str "JBFqnCBsd6RMkjVDRZzb"),
   ("llm_service", .str "gpt-4o-mini"),
   ("bot_type", .str "prompt"),
   ("language", .list [.str "en"]),
   ("is_filler_enable", .bool false),
   ("filler_after_sec", .int 0),
   ("llm_straming_enabled", .bool false),
   ("enable_web_search", .bool false)]

/-- The agent configuration as synthesized inside
`create_restaurant_agent`: customer name and email resolved with their
defaults (lines 89-90) and fed to the configuration template. -/
def resolved_config (restaurant_name : String)
    (customer_info : List (String × String)) : List (String × Val) :=
  agent_config restaurant_name
    ((dget customer_info "name").getD "Customer")
    ((dget customer_info "email").getD "customer@example.com")

/-- The timestamp-based mock agent identifier (line 126). -/
def mock_agent_id (t : Nat) : String := "mock_agent_" ++ toString t

/-- The mock agent data (line 127): id plus the configured name. -/
def mock_agent_data (restaurant_name : String)
    (customer_info : List (String × String)) (t : Nat) : Val :=
  Val.dict [("id", .str (mock_agent_id t)),
            ("name", dgetV (resolved_config restaurant_name customer_info) "name")]

/-- Embeds `OmniDimensionService.create_restaurant_agent` (lines 84-150).
`customer_info` carries the string-valued entries of the customer dict.
`create_resp` is the oracle for the retried external
`self.client.agent.create(**agent_config)` call (line 135): given the
configuration it either returns the provider response or raises; `t` is
`int(time.time())` for the mock identifier.  Returns the new state
together with the `(agent_id, agent_data)` pair or the raised
exception. -/
def create_restaurant_agent (st : ServiceState) (mock_mode : Bool)
    (create_resp : List (String × Val) → Except String Val)
    (restaurant_name : String) (customer_info : List (String × String)) (t : Nat) :
    ServiceState × Except String (Val × Val) :=
  if restaurant_name == "" then (st, .error "Restaurant name is required")
  else
    match validate_agent_config (resolved_config restaurant_name customer_info) with
    | .error e => (st, .error e)
    | .ok _ =>
      if mock_mode then
        (⟨(Val.str (mock_agent_id t), mock_agent_data restaurant_name customer_info t)
            :: st.agents_cache, st.call_history⟩,
         .ok (.str (mock_agent_id t), mock_agent_data restaurant_name customer_info t))
      else
        match create_resp (resolved_config restaurant_name customer_info) with
        | .error e => (st, .error e)
        | .ok response =>
          match handle_response response with
          | .dict d =>
            if (dgetV d "id").truthy then
              (⟨(dgetV d "id", .dict d) :: st.agents_cache, st.call_history⟩,
               .ok (dgetV d "id", .dict d))
            else (st, .error "Agent creation failed - no ID returned")
          | _ => (st, .error "AttributeError: response has no attribute get")

/-- The phone resolution of `make_call` (line 157),
`phone = phone_number or self.test_phone`: a falsy (absent or empty)
argument falls back to the fixed test number. -/
def resolve_phone (phone_number : Option String) : String :=
  match phone_number with
  | Option.some p => if p == "" then test_phone else p
  | Option.none => test_phone

/-- The call-identifier extraction of `make_call` (lines 206-209) on the
normalized dispatch response:
`call_data.get("id") or call_data.get("call_id") or call_data.get("uuid")`
followed by `if not call_id: raise ValueError(...)`.  Python `or` selects
by truthiness, so a present-but-falsy value is skipped.  The interpolated
response text of the exception message is elided. -/
def extract_call_id (d : List (String × Val)) : Except String Val :=
  let call_id := pyOr (dgetV d "id") (pyOr (dgetV d "call_id") (dgetV d "uuid"))
  if call_id.truthy then .ok call_id
  else .error "Call dispatch failed - no call ID returned"

/-- Embeds `OmniDimensionService.make_call` (lines 152-236).  `agent_id`
is a dynamic value (a string in mock mode; whatever `create` returned in
real mode).  `dispatch` is the oracle for the retried external
`self.client.call.dispatch_call` (lines 197-202), a function of agent id,
destination number and call context.  The non-mock pre-flight agent check
(lines 166-180) only prints warnings and never affects the result or the
state, so it has no embedded counterpart.  `t` is `int(time.time())`,
`now` the `self._now()` timestamp. -/
def make_call (st : ServiceState) (mock_mode : Bool)
    (dispatch : Val → String → List (String × Val) → Except String Val)
    (agent_id : Val) (phone_number : Option String)
    (call_context : Option (List (String × Val))) (t : Nat) (now : String) :
    ServiceState × Except String (Val × Val) :=
  if !agent_id.truthy then (st, .error "Agent ID is required")
  else if !validate_phone_number (resolve_phone phone_number) then
    (st, .error ("Invalid phone number: " ++ resolve_phone phone_number))
  else if mock_mode then
    let call_id := "mock_call_" ++ toString t
    let call_data : List (String × Val) :=
      [("id", .str call_id), ("status", .str "mock_initiated"),
       ("agent_id", agent_id), ("phone_number", .str (resolve_phone phone_number))]
    let call_record := dset call_data "timestamp" (.str now)
    (⟨st.agents_cache, st.call_history ++ [Val.dict call_record]⟩,
     .ok (.str call_id, .dict call_data))
  else
    match dispatch agent_id (resolve_phone phone_number) (call_context.getD []) with
    | .error e => (st, .error e)
    | .ok response =>
      match handle_response response with
      | .dict d =>
        match extract_call_id d with
        | .error e => (st, .error e)
        | .ok call_id =>
          let call_record := dset d "timestamp" (.str now)
          (⟨st.agents_cache, st.call_history ++ [Val.dict call_record]⟩,
           .ok (call_id, .dict d))
      | _ => (st, .error "AttributeError: response has no attribute get")

/-- Embeds `OmniDimensionService.get_call_status` (lines 238-257).
`status_resp` is the oracle for the retried external
`self.client.call.get_call_log(call_id)` call.  Reads no mutable state. -/
def get_call_status (mock_mode : Bool) (status_resp : Val → Except String Val)
    (call_id : Val) : Except String Val :=
  if !call_id.truthy then .error "Call ID is required"
  else if mock_mode then
    .ok (.dict [("id", call_id), ("status", .str "mock_completed"),
                ("summary", .str "Mock reservation confirmed successfully."),
                ("duration", .int 45),
                ("transcript", .str "Mock conversation transcript")])
  else
    match status_resp call_id with
    | .ok response => .ok (handle_response response)
    | .error e => .error e

/-- Python's trailing slice `l[-n:]` for a non-negative `n`: for `n = 0`
the index `-0` is just `0`, so the slice is the whole list; for `n > 0`
it is the last `n` entries (all of them when `n ≥ length`). -/
def pySliceLast (l : List Val) (n : Nat) : List Val :=
  if n = 0 then l else l.drop (l.length - n)

/-- Embeds the mock branch of `OmniDimensionService.get_call_logs`
(lines 261-269): the trailing `page_size` slice of the call history plus
a pagination summary whose `total` is the full history length. -/
def get_call_logs_mock (st : ServiceState) (page page_size : Nat) : Val :=
  Val.dict [("data", Val.list (pySliceLast st.call_history page_size)),
            ("pagination", Val.dict
              [("page", .int page), ("page_size", .int page_size),
               ("total", .int st.call_history.length)])]

/-- Embeds the mock branch of `OmniDimensionService.get_agent_details`
(lines 363-364): `self.agents_cache.get(agent_id, {"id": ..., "status": "mock"})`. -/
def get_agent_details_mock (st : ServiceState) (agent_id : String) : Val :=
  match st.agents_cache.find? (fun p =>
      match p.1 with
      | .str s => s == agent_id
      | _ => false) with
  | Option.some p => p.2
  | Option.none => .dict [("id", .str agent_id), ("status", .str "mock")]

/-- The failure-tagged result dict built by the orchestrator's `except`
block (lines 352-359). -/
def reservation_failure (e : String)
    (restaurant_info reservation_details customer_info : List (String × String))
    (now : String) : Val :=
  Val.dict [("success", .bool false), ("error", .str e),
            ("timestamp", .str now),
            ("restaurant", .str ((dget restaurant_info "name").getD "")),
            ("customer", .str ((dget customer_info "name").getD "")),
            ("reservation", strDict reservation_details)]

/-- The call-context mapping built by the orchestrator (lines 309-320):
reservation details with defaults, customer and restaurant identifying
fields, and two constant tags. -/
def reservation_call_context
    (restaurant_info reservation_details customer_info : List (String × String))
    (tomorrow : String) : List (String × Val) :=
  [("reservation_date", .str ((dget reservation_details "date").getD tomorrow)),
   ("reservation_time", .str ((dget reservation_details "time").getD "7:00 PM")),
   ("number_of_guests", .str ((dget reservation_details "party_size").getD "2")),
   ("special_requests", .str ((dget reservation_details "special_requests").getD "")),
   ("customer_name", .str ((dget customer_info "name").getD "")),
   ("customer_phone", .str ((dget customer_info "phone").getD "")),
   ("customer_email", .str ((dget customer_info "email").getD "")),
   ("restaurant_name", .str ((dget restaurant_info "name").getD "")),
   ("booking_type", .str "reservation"),
   ("urgency", .str "normal")]

/-- The target phone of the orchestrator (line 323):
`restaurant_phone or self.test_phone`. -/
def reservation_target_phone (restaurant_info : List (String × String)) : String :=
  if (dget restaurant_info "phone").getD "" == "" then test_phone
  else (dget restaurant_info "phone").getD ""

/-- Embeds `OmniDimensionService.make_restaurant_reservation`
(lines 283-359).  The three input dicts are string-valued; `create_resp`,
`dispatch` and `status_resp` are the external-call oracles of the
composed steps; `t` models `int(time.time())`, `now` the `self._now()`
timestamp and `tomorrow` the `self._tomorrow()` default date.  The
fail-fast validation (lines 287-297) happens before the `try` block, so
its errors are raised to the caller; errors from the composed steps are
caught (lines 350-359) and turned into a failure-tagged result dict, with
any state mutations made before the failure kept. -/
def make_restaurant_reservation (st : ServiceState) (mock_mode : Bool)
    (create_resp : List (String × Val) → Except String Val)
    (dispatch : Val → String → List (String × Val) → Except String Val)
    (status_resp : Val → Except String Val)
    (restaurant_info reservation_details customer_info : List (String × String))
    (t : Nat) (now tomorrow : String) : ServiceState × Except String Val :=
  if restaurant_info.isEmpty || ((dget restaurant_info "name").getD "" == "") then
    (st, .error "Restaurant info with name is required")
  else if customer_info.isEmpty || ((dget customer_info "name").getD "" == "") then
    (st, .error "Customer info with name is required")
  else if reservation_details.isEmpty then
    (st, .error "Reservation details are required")
  else if !((dget restaurant_info "phone").getD "" == "") &&
      !validate_phone_number ((dget restaurant_info "phone").getD "") then
    (st, .error ("Invalid restaurant phone number: " ++ (dget restaurant_info "phone").getD ""))
  else
    match create_restaurant_agent st mock_mode create_resp
        ((dget restaurant_info "name").getD "") customer_info t with
    | (st1, .error e) =>
      (st1, .ok (reservation_failure e restaurant_info reservation_details customer_info now))
    | (st1, .ok (agent_id, agent_data)) =>
      match make_call st1 mock_mode dispatch agent_id
          (Option.some (reservation_target_phone restaurant_info))
          (Option.some (reservation_call_context restaurant_info reservation_details
            customer_info tomorrow)) t now with
      | (st2, .error e) =>
        (st2, .ok (reservation_failure e restaurant_info reservation_details customer_info now))
      | (st2, .ok (call_id, call_data)) =>
        match get_call_status mock_mode status_resp call_id with
        | .error e =>
          (st2, .ok (reservation_failure e restaurant_info reservation_details customer_info now))
        | .ok call_status =>
          (st2, .ok (Val.dict
            [("success", .bool true), ("agent_id", agent_id),
             ("call_id", call_id), ("agent_data", agent_data),
             ("call_data", call_data), ("call_status", call_status),
             ("timestamp", .str now),
             ("restaurant", .str ((dget restaurant_info "name").getD "")),
             ("customer", .str ((dget customer_info "name").getD "")),
             ("reservation", strDict reservation_details),
             ("target_phone", .str (reservation_target_phone restaurant_info))]))

/-- Embeds `OmniDimensionService.test_api_connection` (lines 373-391).
`probe` is the oracle for the retried call-logs probe; both outcomes are
converted into a status dict, never raised. -/
def test_api_connection (mock_mode : Bool) (probe : Except String Val) : Val :=
  if mock_mode then
    .dict [("status", .str "mock_mode"), ("api_accessible", .bool false)]
  else
    match probe with
    | .ok response =>
      .dict [("status", .str "connected"), ("api_accessible", .bool true),
             ("response", response)]
    | .error e =>
      .dict [("status", .str "error"), ("api_accessible", .bool false),
             ("error", .str e)]

/-- The loop body of `OmniDimensionService._retry_api_call` (lines 63-80),
iterating over the remaining attempt indices of `range(max_retries)`.
`op i` is the outcome of the i-th invocation of `api_func`.  Returns the
overall outcome (`none` models `raise last_exception` with no recorded
exception, Python's raise-of-None), the number of invocations performed,
and the list of back-off waits actually slept
(`retry_delay * 2 ** attempt`, only when `attempt < max_retries - 1`). -/
def retry_api_call_go {E A : Type} (op : Nat → Except E A)
    (retry_delay max_retries : Nat) :
    List Nat → Option E → Option (Except E A) × Nat × List Nat
  | [], last => (last.map Except.error, 0, [])
  | attempt :: rest, _ =>
    match op attempt with
    | .ok v => (Option.some (.ok v), 1, [])
    | .error e =>
      let r := retry_api_call_go op retry_delay max_retries rest (Option.some e)
      if attempt < max_retries - 1 then
        (r.1, r.2.1 + 1, retry_delay * 2 ^ attempt :: r.2.2)
      else
        (r.1, r.2.1 + 1, r.2.2)

/-- Embeds `OmniDimensionService._retry_api_call` (lines 63-80) with
explicit `max_retries` / `retry_delay` (the service fixes them to 3 and
2 at construction, lines 28-29). -/
def retry_api_call {E A : Type} (op : Nat → Except E A)
    (max_retries retry_delay : Nat) : Option (Except E A) × Nat × List Nat :=
  retry_api_call_go op retry_delay max_retries (List.range max_retries) Option.none

/-- One invocation of a service operation, with its inputs and external
oracles baked in; used to state cache invariants over arbitrary
operation sequences. -/
inductive Op where
  | createAgent (mock : Bool) (create_resp : List (String × Val) → Except String Val)
      (restaurant_name : String) (customer_info : List (String × String)) (t : Nat)
  | makeCall (mock : Bool)
      (dispatch : Val → String → List (String × Val) → Except String Val)
      (agent_id : Val) (phone_number : Option String)
      (call_context : Option (List (String × Val))) (t : Nat) (now : String)
  | makeReservation (mock : Bool)
      (create_resp : List (String × Val) → Except String Val)
      (dispatch : Val → String → List (String × Val) → Except String Val)
      (status_resp : Val → Except String Val)
      (restaurant_info reservation_details customer_info : List (String × String))
      (t : Nat) (now tomorrow : String)
  | getCallStatus (mock : Bool) (status_resp : Val → Except String Val) (call_id : Val)
  | getCallLogs (page page_size : Nat)
  | getAgentDetails (agent_id : String)
  | testConnection (mock : Bool) (probe : Except String Val)

/-- The state transition of one service operation.  The readers
(`get_call_status`, `get_call_logs`, `get_agent_details`,
`test_api_connection`) never modify `agents_cache` or `call_history`. -/
def stepOp (st : ServiceState) : Op → ServiceState
  | .createAgent mock cr rn ci t => (create_restaurant_agent st mock cr rn ci t).1
  | .makeCall mock dp aid pn cc t now => (make_call st mock dp aid pn cc t now).1
  | .makeReservation mock cr dp sr ri rd ci t now tomorrow =>
      (make_restaurant_reservation st mock cr dp sr ri rd ci t now tomorrow).1
  | .getCallStatus _ _ _ => st
  | .getCallLogs _ _ => st
  | .getAgentDetails _ => st
  | .testConnection _ _ => st

/-! ## Helper lemmas -/

/-- Filtering out plus signs before filtering to digits is the same as
filtering to digits: a plus sign is not a digit. -/
theorem filter_ne_plus_filter_isDigit (l : List Char) :
    ((l.filter (fun c => c ≠ '+')).filter (fun c => c.isDigit)) =
      l.filter (fun c => c.isDigit) := by
  rw [List.filter_filter]
  apply List.filter_congr
  intro c _
  by_cases hc : c = '+'
  · subst hc
    simp
  · simp [hc]

/-- A string concatenation is empty iff both halves are. -/
theorem string_append_eq_empty (a b : String) : a ++ b = "" ↔ a = "" ∧ b = "" := by
  simp [String.ext_iff, String.data_append]

/-- Boolean form: an append whose left half is nonempty is nonempty. -/
theorem string_append_beq_empty_left (a b : String) (h : a ≠ "") :
    ((a ++ b) == "") = false := by
  apply beq_eq_false_iff_ne.mpr
  intro hab
  exact h ((string_append_eq_empty a b).mp hab).1

/-- Boolean form: an append whose right half is nonempty is nonempty. -/
theorem string_append_beq_empty_right (a b : String) (h : b ≠ "") :
    ((a ++ b) == "") = false := by
  apply beq_eq_false_iff_ne.mpr
  intro hab
  exact h ((string_append_eq_empty a b).mp hab).2

/-! ## Claims -/

/-- C2: the claim says constructing the service with no explicit api-key
parameter and the environment variable unset fails with a `ValueError`.
The code instead succeeds: the `api_key` parameter declares the hardcoded
default key `"Zxw_..."` (line 15), which is truthy, so the `ValueError`
branch is unreachable on that input — contradicting the code's own
comment on line 16 ("Don't hardcode API keys - use environment
variables").  This theorem evaluates the constructor's key resolution at
the failing input. -/
theorem C2_hardcoded_default_key :
    init_api_key Option.none Option.none =
      Except.ok "Zxw_8n3uvfGKhHMHv9jZwu5z0FncESPNnMjZC0R14J0" := by
  rfl

/-- C3: `_validate_phone_number` returns true iff the count of digit
characters of the input (every non-digit, including a plus sign, is
ignored) lies in [10, 15]; in particular `"+919876543210"` validates
true, `"12345"` false and `""` false. -/
theorem C3_validate_phone_number_spec :
    (∀ phone : String, validate_phone_number phone = true ↔
        (10 ≤ (phone.data.filter (fun c => c.isDigit)).length ∧
         (phone.data.filter (fun c => c.isDigit)).length ≤ 15)) ∧
    validate_phone_number "+919876543210" = true ∧
    validate_phone_number "12345" = false ∧
    validate_phone_number "" = false := by
  refine ⟨?_, by decide, by decide, by decide⟩
  intro phone
  unfold validate_phone_number
  by_cases hp : phone = ""
  · subst hp
    simp
  · rw [if_neg (by simpa using hp)]
    rw [filter_ne_plus_filter_isDigit]
    simp

/-- C8: `_handle_response` returns an already-flat mapping (one without
the nested `json` payload key) unchanged, hence is idempotent on it, and
passes any non-mapping value through as-is. -/
theorem C8_handle_response_idempotent :
    (∀ d : List (String × Val), dget d "json" = Option.none →
        handle_response (Val.dict d) = Val.dict d ∧
        handle_response (handle_response (Val.dict d)) = handle_response (Val.dict d)) ∧
    (∀ v : Val, (∀ d : List (String × Val), v ≠ Val.dict d) → handle_response v = v) := by
  constructor
  · intro d hd
    have h1 : handle_response (Val.dict d) = Val.dict d := by
      simp only [handle_response, hd]
    exact ⟨h1, by rw [h1]; exact h1⟩
  · intro v hv
    cases v with
    | dict d => exact absurd rfl (hv d)
    | str s => rfl
    | int n => rfl
    | bool b => rfl
    | list l => rfl
    | null => rfl

/-- Witness for C8 at concrete inputs: a flat mapping is unchanged and a
string passes through. -/
theorem C8_witness :
    handle_response (Val.dict [("a", Val.str "b")]) = Val.dict [("a", Val.str "b")] ∧
    handle_response (Val.str "x") = Val.str "x" :=
  ⟨(C8_handle_response_idempotent.1 [("a", Val.str "b")] rfl).1,
   C8_handle_response_idempotent.2 (Val.str "x") (fun _ h => Val.noConfusion h)⟩

/-- C6 counterexample: the claim says the call identifier is taken from
the first *present* key among `id`, `call_id`, `uuid`.  On the mapping
`{"id": "", "call_id": "abc"}` the key `id` is present, yet the code's
truthiness-based `or`-chain skips its empty value and returns the value
at `call_id` instead. -/
theorem C6_counterexample :
    dget [("id", Val.str ""), ("call_id", Val.str "abc")] "id" =
      Option.some (Val.str "") ∧
    extract_call_id [("id", Val.str ""), ("call_id", Val.str "abc")] =
      Except.ok (Val.str "abc") ∧
    Val.str "abc" ≠ Val.str "" := by
  refine ⟨rfl, rfl, ?_⟩
  intro h
  injection h with h'
  exact absurd h' (by decide)

/-- The first truthy value among the given keys of a mapping. -/
def first_truthy_value (d : List (String × Val)) : List String → Option Val
  | [] => Option.none
  | k :: ks =>
    if (dgetV d k).truthy then Option.some (dgetV d k) else first_truthy_value d ks

/-- C6 amended: the call-identifier extraction takes the first of the
keys `id`, `call_id`, `uuid` whose value is present *and truthy*
(non-empty, non-null, non-zero), and fails with a `ValueError` when none
of the three holds a truthy value. -/
theorem C6_amended_first_truthy (d : List (String × Val)) :
    extract_call_id d =
      (match first_truthy_value d ["id", "call_id", "uuid"] with
       | Option.some v => Except.ok v
       | Option.none => Except.error "Call dispatch failed - no call ID returned") := by
  unfold extract_call_id pyOr
  by_cases h1 : (dgetV d "id").truthy <;>
    by_cases h2 : (dgetV d "call_id").truthy <;>
      by_cases h3 : (dgetV d "uuid").truthy <;>
        simp [first_truthy_value, h1, h2, h3]

/-- C9: in mock mode, `get_call_logs` with `page_size = 0` returns the
entire call history (the slice `[-0:]` is the whole list, not zero
entries); with `page_size > 0` it returns the trailing `page_size`
entries (`List.rtake`); and the pagination `total` always equals the full
history length, regardless of `page` and `page_size`. -/
theorem C9_get_call_logs_mock (st : ServiceState) (page page_size : Nat) :
    (get_call_logs_mock st page 0).getKey "data" =
      Option.some (Val.list st.call_history) ∧
    (0 < page_size →
      (get_call_logs_mock st page page_size).getKey "data" =
        Option.some (Val.list (st.call_history.rtake page_size))) ∧
    (get_call_logs_mock st page page_size).getKey "pagination" =
      Option.some (Val.dict [("page", .int page), ("page_size", .int page_size),
        ("total", .int st.call_history.length)]) := by
  refine ⟨?_, fun hps => ?_, ?_⟩
  · simp [get_call_logs_mock, Val.getKey, dget, pySliceLast]
  · simp only [get_call_logs_mock, Val.getKey, dget, pySliceLast, List.rtake]
    rw [if_neg (Nat.pos_iff_ne_zero.mp hps)]
    rfl
  · rfl

/-- Witness for C9: with a two-call history and `page_size = 1`, the data
field is the last call record. -/
theorem C9_witness :
    (get_call_logs_mock ⟨[], [Val.null, Val.int 1]⟩ 1 1).getKey "data" =
      Option.some (Val.list [Val.int 1]) :=
  (C9_get_call_logs_mock ⟨[], [Val.null, Val.int 1]⟩ 1 1).2.1 (by decide)

/-- A string append with nonempty left half is nonempty. -/
theorem string_append_left_ne (a b : String) (ha : a ≠ "") : a ++ b ≠ "" :=
  fun hab => ha ((string_append_eq_empty a b).mp hab).1

/-- A string append with nonempty right half is nonempty. -/
theorem string_append_right_ne (a b : String) (hb : b ≠ "") : a ++ b ≠ "" :=
  fun hab => hb ((string_append_eq_empty a b).mp hab).2

/-- For arbitrary resolved customer name and email, the synthesized agent
configuration has truthy `name`, `welcome_message` and `call_type`
entries and passes `_validate_agent_config`. -/
theorem agent_config_valid_general (rn cn ce : String) :
    (dgetV (agent_config rn cn ce) "name").truthy = true ∧
    (dgetV (agent_config rn cn ce) "welcome_message").truthy = true ∧
    (dgetV (agent_config rn cn ce) "call_type").truthy = true ∧
    validate_agent_config (agent_config rn cn ce) = Except.ok true := by
  have hname : (rn ++ " - Booking Assistant for " ++ cn) ≠ "" :=
    string_append_left_ne _ _
      (string_append_right_ne _ _ (by decide))
  have hwel : ("Hello! This is " ++ cn ++ " calling to make a reservation at "
      ++ rn ++ ". Could you please help me with booking a table?") ≠ "" :=
    string_append_left_ne _ _
      (string_append_left_ne _ _
        (string_append_left_ne _ _
          (string_append_left_ne _ _ (by decide))))
  have h1 : (dgetV (agent_config rn cn ce) "name").truthy = true := by
    show (!((rn ++ " - Booking Assistant for " ++ cn) == "")) = true
    rw [beq_eq_false_iff_ne.mpr hname]
    rfl
  have h2 : (dgetV (agent_config rn cn ce) "welcome_message").truthy = true := by
    show (!(("Hello! This is " ++ cn ++ " calling to make a reservation at "
        ++ rn ++ ". Could you please help me with booking a table?") == "")) = true
    rw [beq_eq_false_iff_ne.mpr hwel]
    rfl
  have h3 : (dgetV (agent_config rn cn ce) "call_type").truthy = true := by
    rfl
  refine ⟨h1, h2, h3, ?_⟩
  unfold validate_agent_config
  simp only [validate_required_fields, h1, h2, h3, if_true]

/-- C10: for every non-empty restaurant name and every (string-valued)
customer-info mapping, the agent configuration synthesized by
`create_restaurant_agent` has non-empty `name`, `welcome_message` and
`call_type` fields, so `_validate_agent_config` succeeds: its raising
branch is unreachable under the non-empty-restaurant-name
precondition. -/
theorem C10_agent_config_always_valid (restaurant_name : String)
    (customer_info : List (String × String)) (h : restaurant_name ≠ "") :
    (dgetV (agent_config restaurant_name
        ((dget customer_info "name").getD "Customer")
        ((dget customer_info "email").getD "customer@example.com")) "name").truthy = true ∧
    (dgetV (agent_config restaurant_name
        ((dget customer_info "name").getD "Customer")
        ((dget customer_info "email").getD "customer@example.com")) "welcome_message").truthy = true ∧
    (dgetV (agent_config restaurant_name
        ((dget customer_info "name").getD "Customer")
        ((dget customer_info "email").getD "customer@example.com")) "call_type").truthy = true ∧
    validate_agent_config (agent_config restaurant_name
        ((dget customer_info "name").getD "Customer")
        ((dget customer_info "email").getD "customer@example.com")) = Except.ok true :=
  agent_config_valid_general restaurant_name
    ((dget customer_info "name").getD "Customer")
    ((dget customer_info "email").getD "customer@example.com")

/-- Witness for C10 at a concrete restaurant and customer. -/
theorem C10_witness :
    validate_agent_config (agent_config "Spice Garden Restaurant"
      ((dget ([("name", "Ayush Kumar")] : List (String × String)) "name").getD "Customer")
      ((dget ([("name", "Ayush Kumar")] : List (String × String)) "email").getD "customer@example.com"))
      = Except.ok true :=
  (C10_agent_config_always_valid "Spice Garden Restaurant" [("name", "Ayush Kumar")]
    (by decide)).2.2.2

/-- Behaviour of the retry loop on an always-failing operation over any
contiguous block of attempt indices ending at `max_retries`. -/
theorem retry_go_all_fail {E A : Type} (err : Nat → E) (d n : Nat) :
    ∀ (k s : Nat) (last : Option E), s + k = n → 1 ≤ k →
      retry_api_call_go (E := E) (A := A) (fun i => .error (err i)) d n
          (List.range' s k) last =
        (Option.some (.error (err (n - 1))), k,
         (List.range' s (k - 1)).map (fun i => d * 2 ^ i)) := by
  intro k
  induction k with
  | zero => intro s last _ h1; omega
  | succ k ih =>
    intro s last hsum _
    rw [List.range'_succ]
    simp only [retry_api_call_go]
    cases k with
    | zero =>
      have hs : s = n - 1 := by omega
      rw [if_neg (by omega)]
      simp [retry_api_call_go, hs, List.range']
    | succ k' =>
      have hlt : s < n - 1 := by omega
      rw [ih (s + 1) (Option.some (err s)) (by omega) (by omega)]
      rw [if_pos hlt]
      simp [List.range'_succ]

/-- C4: `_retry_api_call` given an always-failing operation invokes it
exactly `max_retries` times, re-raises the last failure unchanged, and
sleeps `retry_delay * 2 ^ attempt_index` exactly between consecutive
attempts (attempt indices 0 .. max_retries - 2), never after the final
failed attempt. -/
theorem C4_retry_always_fail {E A : Type} (err : Nat → E) (n d : Nat) (h : 1 ≤ n) :
    retry_api_call (E := E) (A := A) (fun i => .error (err i)) n d =
      (Option.some (.error (err (n - 1))), n,
       (List.range (n - 1)).map (fun i => d * 2 ^ i)) := by
  unfold retry_api_call
  rw [List.range_eq_range']
  rw [retry_go_all_fail err d n n 0 Option.none (by omega) h]
  rw [List.range_eq_range']

/-- Witness for C4 at the service's own configuration
(`max_retries = 3`, `retry_delay = 2`): three invocations, the third
error re-raised, waits of 2 and 4 seconds between attempts. -/
theorem C4_witness :
    retry_api_call (E := Nat) (A := Nat) (fun i => .error i) 3 2 =
      (Option.some (.error 2), 3, [2, 4]) :=
  C4_retry_always_fail (fun i => i) 3 2 (by decide)

/-- C5: `make_call` with a truthy agent id whose resolved phone number
(the given one, or the fixed test number when the argument is falsy)
fails validation raises `ValueError` and leaves the whole state — in
particular the call history — unchanged: no record is appended before
the failure, and no dispatch is attempted. -/
theorem C5_make_call_invalid_phone (st : ServiceState) (mock : Bool)
    (dispatch : Val → String → List (String × Val) → Except String Val)
    (agent_id : Val) (phone_number : Option String)
    (call_context : Option (List (String × Val))) (t : Nat) (now : String)
    (h1 : agent_id.truthy = true)
    (h2 : validate_phone_number (resolve_phone phone_number) = false) :
    make_call st mock dispatch agent_id phone_number call_context t now =
      (st, Except.error ("Invalid phone number: " ++ resolve_phone phone_number)) := by
  unfold make_call
  simp [h1, h2]

/-- Witness for C5: a three-digit phone number is rejected with the state
untouched. -/
theorem C5_witness :
    make_call initState true (fun _ _ _ => Except.error "unused") (Val.str "agent-1")
      (Option.some "123") Option.none 0 "now" =
      (initState, Except.error ("Invalid phone number: " ++ resolve_phone (Option.some "123"))) :=
  C5_make_call_invalid_phone initState true (fun _ _ _ => Except.error "unused")
    (Val.str "agent-1") (Option.some "123") Option.none 0 "now" (by decide) (by decide)

/-- C1 counterexample: the claim says `make_restaurant_reservation` with
an empty/missing restaurant name returns a failure-tagged result object
and does not raise.  The code's fail-fast validation (lines 287-288)
precedes the `try` block, so on an empty restaurant-info dict the
orchestrator raises `ValueError` instead of returning a result (here:
the second component is `Except.error`, a raised exception, not a result
dict). -/
theorem C1_counterexample :
    make_restaurant_reservation initState true (fun _ => Except.error "unused")
      (fun _ _ _ => Except.error "unused") (fun _ => Except.error "unused")
      [] [("date", "2025-06-23")] [("name", "Ayush Kumar")] 0 "now" "tomorrow" =
      (initState, Except.error "Restaurant info with name is required") := by
  rfl

/-- C1 amended: for every call of `make_restaurant_reservation` whose
restaurant info has an empty or missing name, the orchestrator raises
`ValueError` (rather than returning a failure-tagged result), and the
state — in particular the agent cache — is returned unchanged: no agent
is cached and no external or mock call is attempted. -/
theorem C1_empty_restaurant_raises (st : ServiceState) (mock : Bool)
    (create_resp : List (String × Val) → Except String Val)
    (dispatch : Val → String → List (String × Val) → Except String Val)
    (status_resp : Val → Except String Val)
    (restaurant_info reservation_details customer_info : List (String × String))
    (t : Nat) (now tomorrow : String)
    (h : restaurant_info.isEmpty = true ∨ (dget restaurant_info "name").getD "" = "") :
    make_restaurant_reservation st mock create_resp dispatch status_resp
      restaurant_info reservation_details customer_info t now tomorrow =
      (st, Except.error "Restaurant info with name is required") := by
  unfold make_restaurant_reservation
  rcases h with h | h
  · simp [h]
  · simp [h]

/-- Witness for C1: a restaurant dict carrying only a phone number (no
name) makes the orchestrator raise with the state unchanged. -/
theorem C1_witness :
    make_restaurant_reservation initState true (fun _ => Except.error "unused")
      (fun _ _ _ => Except.error "unused") (fun _ => Except.error "unused")
      [("phone", "+919876543210")] [("date", "2025-06-23")] [("name", "Ayush Kumar")]
      0 "now" "tomorrow" =
      (initState, Except.error "Restaurant info with name is required") :=
  C1_empty_restaurant_raises initState true (fun _ => Except.error "unused")
    (fun _ _ _ => Except.error "unused") (fun _ => Except.error "unused")
    [("phone", "+919876543210")] [("date", "2025-06-23")] [("name", "Ayush Kumar")]
    0 "now" "tomorrow" (Or.inr (by decide))

/-- A cons is a one-element append. -/
theorem exists_append_cons {α : Type} (x : α) (xs : List α) :
    ∃ l, x :: xs = l ++ xs := ⟨[x], rfl⟩

/-- Any list extends itself by the empty prefix. -/
theorem exists_append_self {α : Type} (xs : List α) :
    ∃ l : List α, xs = l ++ xs := ⟨[], rfl⟩

/-- `make_call` never modifies the agent cache (it only appends to the
call history). -/
theorem make_call_agents_cache (st : ServiceState) (mock : Bool)
    (dp : Val → String → List (String × Val) → Except String Val)
    (aid : Val) (pn : Option String) (cc : Option (List (String × Val)))
    (t : Nat) (now : String) :
    ((make_call st mock dp aid pn cc t now).1).agents_cache = st.agents_cache := by
  unfold make_call
  repeat' split
  all_goals rfl

/-- `create_restaurant_agent` only ever extends the agent cache by a
prefix (one new entry on success, nothing on failure). -/
theorem create_agent_cache_extends (st : ServiceState) (mock : Bool)
    (cr : List (String × Val) → Except String Val)
    (rn : String) (ci : List (String × String)) (t : Nat) :
    ∃ l, ((create_restaurant_agent st mock cr rn ci t).1).agents_cache =
      l ++ st.agents_cache := by
  unfold create_restaurant_agent
  repeat' split
  all_goals first
    | exact exists_append_self _
    | exact exists_append_cons _ _

/-- The orchestrator only ever extends the agent cache by a prefix. -/
theorem reservation_cache_extends (st : ServiceState) (mock : Bool)
    (cr : List (String × Val) → Except String Val)
    (dp : Val → String → List (String × Val) → Except String Val)
    (sr : Val → Except String Val)
    (ri rd ci : List (String × String)) (t : Nat) (now tomorrow : String) :
    ∃ l, ((make_restaurant_reservation st mock cr dp sr ri rd ci t now tomorrow).1).agents_cache =
      l ++ st.agents_cache := by
  unfold make_restaurant_reservation
  repeat' split
  all_goals try exact exists_append_self _
  all_goals first
    | (rename_i st1 e heq
       obtain ⟨l, hl⟩ := create_agent_cache_extends st mock cr ((dget ri "name").getD "") ci t
       rw [heq] at hl
       exact ⟨l, hl⟩)
    | (rename_i x1 st1 agid agdat heq1 x2 st2 e heq2
       obtain ⟨l, hl⟩ := create_agent_cache_extends st mock cr ((dget ri "name").getD "") ci t
       rw [heq1] at hl
       have hm := make_call_agents_cache st1 mock dp agid
         (Option.some (reservation_target_phone ri))
         (Option.some (reservation_call_context ri rd ci tomorrow)) t now
       rw [heq2] at hm
       exact ⟨l, hm.trans hl⟩)
    | (rename_i x1 st1 agid agdat heq1 x2 st2 cid cdat heq2 x3 cs heq3
       obtain ⟨l, hl⟩ := create_agent_cache_extends st mock cr ((dget ri "name").getD "") ci t
       rw [heq1] at hl
       have hm := make_call_agents_cache st1 mock dp agid
         (Option.some (reservation_target_phone ri))
         (Option.some (reservation_call_context ri rd ci tomorrow)) t now
       rw [heq2] at hm
       exact ⟨l, hm.trans hl⟩)

/-- Every service operation extends the agent cache by a prefix: no
operation ever removes a cache entry. -/
theorem step_cache_extends (st : ServiceState) (op : Op) :
    ∃ l, (stepOp st op).agents_cache = l ++ st.agents_cache := by
  cases op with
  | createAgent mock cr rn ci t => exact create_agent_cache_extends st mock cr rn ci t
  | makeCall mock dp aid pn cc t now =>
    exact ⟨[], by
      show (make_call st mock dp aid pn cc t now).1.agents_cache = [] ++ st.agents_cache
      rw [List.nil_append, make_call_agents_cache]⟩
  | makeReservation mock cr dp sr ri rd ci t now tomorrow =>
    exact reservation_cache_extends st mock cr dp sr ri rd ci t now tomorrow
  | getCallStatus _ _ _ => exact exists_append_self _
  | getCallLogs _ _ => exact exists_append_self _
  | getAgentDetails _ => exact exists_append_self _
  | testConnection _ _ => exact exists_append_self _

/-- A cache entry survives any sequence of service operations. -/
theorem mem_cache_foldl (ops : List Op) :
    ∀ (st : ServiceState) (k v : Val), (k, v) ∈ st.agents_cache →
      (k, v) ∈ (ops.foldl stepOp st).agents_cache := by
  induction ops with
  | nil => intro st k v h; exact h
  | cons op rest ih =>
    intro st k v h
    apply ih
    obtain ⟨l, hl⟩ := step_cache_extends st op
    rw [hl]
    exact List.mem_append_right l h

/-- C7: every agent identifier returned by a successful
`create_restaurant_agent` call (mock or real) is a key of the agent
cache from that moment on, and stays one after every subsequent service
operation: no operation removes cache entries. -/
theorem C7_agent_cached_forever (st st' : ServiceState) (mock : Bool)
    (cr : List (String × Val) → Except String Val)
    (rn : String) (ci : List (String × String)) (t : Nat) (aid ad : Val)
    (h : create_restaurant_agent st mock cr rn ci t = (st', Except.ok (aid, ad))) :
    ∀ ops : List Op, (aid, ad) ∈ (ops.foldl stepOp st').agents_cache := by
  have hbase : (aid, ad) ∈ st'.agents_cache := by
    unfold create_restaurant_agent at h
    repeat' split at h
    all_goals first
      | exact Except.noConfusion (congrArg Prod.snd h)
      | (injection h with hst hres
         injection hres with hpair
         injection hpair with ha hd
         subst hst
         subst ha
         subst hd
         exact List.mem_cons_self _ _)
  intro ops
  exact mem_cache_foldl ops st' aid ad hbase

/-- Witness for C7: a mock-created agent is still in the cache after a
subsequent operation. -/
theorem C7_witness :
    (Val.str "mock_agent_0",
     Val.dict [("id", Val.str "mock_agent_0"),
               ("name", Val.str "R - Booking Assistant for N")]) ∈
      ([Op.getCallLogs 1 30].foldl stepOp
        ⟨[(Val.str "mock_agent_0",
           Val.dict [("id", Val.str "mock_agent_0"),
                     ("name", Val.str "R - Booking Assistant for N")])], []⟩).agents_cache :=
  C7_agent_cached_forever initState _ true (fun _ => Except.error "unused")
    "R" [("name", "N")] 0 _ _ rfl [Op.getCallLogs 1 30]
